import Mathlib

/-!
Shallow embedding of asyncpg's test harness (`asyncpg/_testbase/__init__.py`):
the `TestCaseMeta` metaclass that wraps coroutine test methods, the timeout
wrapper, the `assertRunUnder` and `assertLoopErrorHandlerCalled` helpers, the
process-wide default-cluster provider, and the cluster/proxy connection-spec
methods.  Durations and deadlines are rationals; Python exceptions are modelled
with their kind, message, `__cause__`, `__suppress_context__` and `__context__`
fields; Python dicts are association lists with unique keys (lookup finds the
entry with the key, assignment replaces in place or appends, preserving
insertion order — exactly the observable dict semantics).
-/

namespace Testbase

/-- Identity of a Python exception: its class name and message. -/
structure ExcInfo where
  kind : String
  msg : String
deriving DecidableEq

/-- A raised Python exception with its chaining state: `cause` models
`__cause__` (explicit `raise ... from X`), `suppressContext` models
`__suppress_context__` (set by `raise ... from None`), `context` models
`__context__` (the exception that was in flight when this one was raised). -/
structure PyExc where
  info : ExcInfo
  cause : Option ExcInfo
  suppressContext : Bool
  context : Option ExcInfo
deriving DecidableEq

/-- Outcome of running a computation: normal return or a raised exception. -/
inductive Outcome where
  | ok
  | error (e : PyExc)
deriving DecidableEq

/-- Result observed by the caller of a synchronous entry point. -/
inductive RunResult where
  | ok
  | raised (e : PyExc)
deriving DecidableEq

/-- Behaviour of a coroutine object: how long it runs on the loop before
completing, and whether it returns or raises. -/
structure Coro where
  duration : Rat
  outcome : Outcome
deriving DecidableEq

/-- A test method: `isCoroutine` is `inspect.iscoroutinefunction`,
`timeoutAttr` is the optional `__timeout__` attribute (absent, or present
holding `None` or a number, as set by `with_timeout`), `body` is the behaviour
of the coroutine the method produces when called.  `id` distinguishes
methods. -/
structure Method where
  id : Nat
  isCoroutine : Bool
  timeoutAttr : Option (Option Rat)
  body : Coro
deriving DecidableEq

/-- A value stored under an attribute name: either an original attribute value
or the synchronous wrapper that `TestCaseMeta.__new__` builds around a
method. -/
inductive Callable where
  | plain (m : Method)
  | wrapped (m : Method)
deriving DecidableEq

/-- Models `inspect.iscoroutinefunction`: true for a coroutine-function attribute,
false for the synchronous wrapper (a plain `def`). -/
def isCoroutineFunction : Callable → Bool
  | .plain m => m.isCoroutine
  | .wrapped _ => false

/-- Python dict lookup: the value at the (unique) entry with the key. -/
def dictGet (d : List (String × α)) (k : String) : Option α :=
  match d with
  | [] => none
  | p :: rest => if p.1 = k then some p.2 else dictGet rest k

/-- Python dict assignment `d[k] = v`: replaces the value at an existing key
in place, otherwise appends the new entry (insertion order preserved). -/
def dictSet (d : List (String × α)) (k : String) (v : α) : List (String × α) :=
  match d with
  | [] => [(k, v)]
  | p :: rest => if p.1 = k then (k, v) :: rest else p :: dictSet rest k v

/-- Models `d.update(kwargs)`: assign every entry of `kwargs` into `d` in order. -/
def dictUpdate (d : List (String × α)) (kwargs : List (String × α)) :
    List (String × α) :=
  kwargs.foldl (fun acc p => dictSet acc p.1 p.2) d

/-- A class namespace (or the attribute table of a base class): names mapped
to callables. -/
abbrev NS := List (String × Callable)

/-- Is the first character list an initial segment of the second? -/
def chunkEq : List Char → List Char → Bool
  | [], _ => true
  | _ :: _, [] => false
  | a :: as, b :: bs => a == b && chunkEq as bs

/-- Models `s.startswith(pre)` over the characters of the strings. -/
def pyStartsWith (s pre : String) : Bool :=
  chunkEq pre.data s.data

/-- The filter applied by `TestCaseMeta._iter_methods`: name starts with
`test_` and the value is a coroutine function. -/
def testMatch (name : String) (c : Callable) : Bool :=
  pyStartsWith name "test_" && isCoroutineFunction c

/-- The base-class part of `_iter_methods`: for each base in order, its
attributes whose name matches `test_` and whose value is a coroutine
function. -/
def baseMatches (bases : List NS) : NS :=
  (bases.map (fun base => base.filter (fun p => testMatch p.1 p.2))).flatten

/-- Building the wrapper around a matched method (`@functools.wraps(meth) def
wrapper ...` with `__meth__=meth` captured by default argument).
`_iter_methods` only yields coroutine functions, which are always `.plain`. -/
def mkWrapper : Callable → Callable
  | .plain m => .wrapped m
  | .wrapped m => .wrapped m

/-- The base phase of `TestCaseMeta.__new__` consuming `_iter_methods`: the
generator's `for base in bases: for methname in dir(base): ...` loop yields
each matching base attribute, and the consumer immediately executes
`ns[methname] = wrapper`.  `dir(base)` is a list snapshot, so these
assignments into `ns` never feed back into the base scan. -/
def basePhase (bases : List NS) (ns : NS) : NS :=
  (baseMatches bases).foldl (fun acc p => dictSet acc p.1 (mkWrapper p.2)) ns

/-- Models `TestCaseMeta.__new__` consuming the `_iter_methods` generator
lazily.  All base-phase yields are produced — and their `ns[methname] =
wrapper` assignments applied — before the generator reaches its
`for methname, meth in ns.items():` loop, so that loop iterates the namespace
as already mutated by the base phase (a same-named base hit has replaced the
namespace's value with the non-coroutine wrapper, which the
`iscoroutinefunction` filter then skips).  During the namespace phase each
assignment only replaces the value of the key just yielded, so every entry is
examined with its post-base-phase value; no new key is inserted while
`ns.items()` is live. -/
def tcm_new (bases : List NS) (ns : NS) : NS :=
  (basePhase bases ns).foldl
    (fun acc p =>
      if testMatch p.1 p.2 then dictSet acc p.1 (mkWrapper p.2) else acc)
    (basePhase bases ns)

/-- The keys of a namespace, in order. -/
def nsKeys (ns : NS) : List String := ns.map Prod.fst

/-- Value of the last entry carrying the given key, if any: what a sequence of
dict assignments, one per entry in order, leaves stored under that key. -/
def lastHit (name : String) : NS → Option Callable
  | [] => none
  | p :: rest =>
    match lastHit name rest with
    | some c => some c
    | none => if p.1 = name then some p.2 else none

theorem dictGet_dictSet (d : List (String × α)) (k : String) (v : α)
    (n : String) :
    dictGet (dictSet d k v) n = if n = k then some v else dictGet d n := by
  induction d with
  | nil =>
    by_cases h : n = k
    · simp [dictGet, dictSet, h]
    · have hkn : ¬ (k = n) := fun hh => h hh.symm
      simp [dictGet, dictSet, h, hkn]
  | cons p rest ih =>
    by_cases hpk : p.1 = k
    · by_cases hnk : n = k
      · simp [dictGet, dictSet, hpk, hnk]
      · have hkn : ¬ (k = n) := fun hh => hnk hh.symm
        have hpn : ¬ (p.1 = n) := by rw [hpk]; exact hkn
        simp [dictGet, dictSet, hpk, hnk, hkn, hpn]
    · by_cases hpn : p.1 = n
      · have hnk : ¬ (n = k) := by rw [← hpn]; exact hpk
        simp [dictGet, dictSet, hpk, hpn, hnk]
      · simp [dictGet, dictSet, hpk, hpn, ih]

theorem dictGet_foldl_wrap (entries : NS) (ns : NS) (name : String) :
    dictGet (entries.foldl (fun acc p => dictSet acc p.1 (mkWrapper p.2)) ns)
        name =
      match lastHit name entries with
      | some c => some (mkWrapper c)
      | none => dictGet ns name := by
  induction entries generalizing ns with
  | nil => simp [lastHit]
  | cons p rest ih =>
    simp only [List.foldl_cons, ih, lastHit]
    cases hrest : lastHit name rest with
    | some c => simp
    | none =>
      by_cases hpn : p.1 = name
      · simp [hpn, dictGet_dictSet]
      · have hnp : ¬ (name = p.1) := fun hh => hpn hh.symm
        simp [hpn, hnp, dictGet_dictSet]

theorem lastHit_cons_ne (name : String) (p : String × Callable) (l : NS)
    (h : ¬ (p.1 = name)) : lastHit name (p :: l) = lastHit name l := by
  simp only [lastHit]
  cases lastHit name l with
  | some c => rfl
  | none => simp [h]

theorem lastHit_append_of_some (name : String) (a b : NS) (c : Callable)
    (h : lastHit name b = some c) : lastHit name (a ++ b) = some c := by
  induction a with
  | nil => simpa using h
  | cons p rest ih => simp [lastHit, ih]

theorem lastHit_append_of_none (name : String) (a b : NS)
    (h : lastHit name b = none) : lastHit name (a ++ b) = lastHit name a := by
  induction a with
  | nil => simpa using h
  | cons p rest ih => simp [lastHit, ih]

theorem lastHit_eq_none_of_not_mem_keys (name : String) (l : NS)
    (h : ¬ name ∈ nsKeys l) : lastHit name l = none := by
  induction l with
  | nil => rfl
  | cons p rest ih =>
    simp only [nsKeys, List.map_cons, List.mem_cons] at h
    push_neg at h
    have hrest : lastHit name rest = none := by
      apply ih
      simpa [nsKeys] using h.2
    have hpn : ¬ (p.1 = name) := fun hh => h.1 hh.symm
    simp [lastHit, hrest, hpn]

theorem lastHit_filter_eq_none (name : String) (l : NS)
    (f : String × Callable → Bool)
    (h : ∀ p ∈ l, p.1 = name → f p = false) :
    lastHit name (l.filter f) = none := by
  induction l with
  | nil => rfl
  | cons p rest ih =>
    have hrest : lastHit name (rest.filter f) = none :=
      ih (fun q hq => h q (List.mem_cons_of_mem p hq))
    by_cases hf : f p
    · rw [List.filter_cons_of_pos hf]
      have hpn : ¬ (p.1 = name) := by
        intro hh
        have hfp := h p (List.mem_cons_self p rest) hh
        rw [hfp] at hf
        exact Bool.false_ne_true hf
      rw [lastHit_cons_ne name p _ hpn]
      exact hrest
    · rw [List.filter_cons_of_neg hf]
      exact hrest

theorem keys_filter_subset (l : NS) (f : String × Callable → Bool)
    (name : String) (h : ¬ name ∈ nsKeys l) : ¬ name ∈ nsKeys (l.filter f) := by
  intro hmem
  apply h
  simp only [nsKeys, List.mem_map] at hmem ⊢
  obtain ⟨p, hp, hpe⟩ := hmem
  exact ⟨p, List.mem_of_mem_filter hp, hpe⟩

theorem dictGet_eq_none_iff (l : NS) (name : String) :
    dictGet l name = none ↔ ¬ name ∈ nsKeys l := by
  induction l with
  | nil => simp [dictGet, nsKeys]
  | cons p rest ih =>
    by_cases hpn : p.1 = name
    · simp [dictGet, nsKeys, hpn]
    · have hnp : ¬ (name = p.1) := fun hh => hpn hh.symm
      simp [dictGet, nsKeys, hpn, hnp, ih]

theorem lastHit_filter_of_nodup (ns : NS) (name : String) (c : Callable)
    (f : String × Callable → Bool)
    (hnd : (nsKeys ns).Nodup) (hget : dictGet ns name = some c) :
    lastHit name (ns.filter f) = if f (name, c) then some c else none := by
  induction ns with
  | nil => simp [dictGet] at hget
  | cons p rest ih =>
    have hnd' : (nsKeys rest).Nodup := by
      simpa [nsKeys] using hnd.of_cons
    by_cases hpn : p.1 = name
    · have hc : p.2 = c := by
        simp [dictGet, hpn] at hget
        exact hget
      have hnotmem : ¬ name ∈ nsKeys rest := by
        have := hnd
        simp only [nsKeys, List.map_cons, List.nodup_cons] at this
        rw [hpn] at this
        simpa [nsKeys] using this.1
      have hrest : lastHit name (rest.filter f) = none :=
        lastHit_eq_none_of_not_mem_keys name _
          (keys_filter_subset rest f name hnotmem)
      have hp : p = (name, c) := by
        cases p with
        | mk a b =>
          simp at hpn hc
          rw [hpn, hc]
      by_cases hf : f p
      · rw [List.filter_cons_of_pos hf]
        rw [lastHit]
        rw [hrest]
        simp [hpn, hc, hp ▸ hf]
      · rw [List.filter_cons_of_neg (by simpa using hf)]
        rw [hrest]
        have : f (name, c) = false := by
          rw [← hp]
          simpa using hf
        simp [this]
    · have hget' : dictGet rest name = some c := by
        simpa [dictGet, hpn] using hget
      have := ih hnd' hget'
      by_cases hf : f p
      · rw [List.filter_cons_of_pos hf, lastHit_cons_ne name p _ hpn]
        exact this
      · rw [List.filter_cons_of_neg (by simpa using hf)]
        exact this

theorem foldl_ite_filter (f : String × Callable → Bool)
    (g : NS → String × Callable → NS) (entries : NS) (acc : NS) :
    entries.foldl (fun a p => if f p then g a p else a) acc
      = (entries.filter f).foldl g acc := by
  induction entries generalizing acc with
  | nil => rfl
  | cons p rest ih =>
    by_cases hf : f p
    · rw [List.filter_cons_of_pos hf]
      simp only [List.foldl_cons, hf, if_true]
      exact ih (g acc p)
    · rw [List.filter_cons_of_neg hf]
      simp only [List.foldl_cons, hf, if_false]
      exact ih acc

theorem mem_nsKeys_dictSet (d : NS) (k : String) (v : Callable) (n : String) :
    n ∈ nsKeys (dictSet d k v) ↔ n ∈ nsKeys d ∨ n = k := by
  induction d with
  | nil => simp [dictSet, nsKeys]
  | cons p rest ih =>
    by_cases hpk : p.1 = k
    · simp only [dictSet, hpk, if_true, nsKeys, List.map_cons, List.mem_cons]
      tauto
    · simp only [dictSet, hpk, if_false, nsKeys, List.map_cons, List.mem_cons]
      rw [show List.map Prod.fst (dictSet rest k v)
          = nsKeys (dictSet rest k v) from rfl, ih]
      simp only [nsKeys]
      tauto

theorem nsKeys_dictSet_nodup (d : NS) (k : String) (v : Callable)
    (hnd : (nsKeys d).Nodup) : (nsKeys (dictSet d k v)).Nodup := by
  induction d with
  | nil => simp [dictSet, nsKeys]
  | cons p rest ih =>
    simp only [nsKeys, List.map_cons, List.nodup_cons] at hnd
    by_cases hpk : p.1 = k
    · simp only [dictSet, hpk, if_true, nsKeys, List.map_cons,
        List.nodup_cons]
      rw [← hpk]
      exact hnd
    · simp only [dictSet, hpk, if_false, nsKeys, List.map_cons,
        List.nodup_cons]
      constructor
      · intro hmem
        rcases (mem_nsKeys_dictSet rest k v p.1).mp hmem with hin | heq
        · exact hnd.1 (by simpa [nsKeys] using hin)
        · exact hpk heq
      · exact ih hnd.2

theorem nodup_foldl_dictSet (entries : NS) (acc : NS)
    (hnd : (nsKeys acc).Nodup) :
    (nsKeys (entries.foldl
      (fun a p => dictSet a p.1 (mkWrapper p.2)) acc)).Nodup := by
  induction entries generalizing acc with
  | nil => exact hnd
  | cons p rest ih =>
    exact ih _ (nsKeys_dictSet_nodup acc p.1 (mkWrapper p.2) hnd)

theorem basePhase_keys_nodup (bases : List NS) (ns : NS)
    (hnd : (nsKeys ns).Nodup) : (nsKeys (basePhase bases ns)).Nodup :=
  nodup_foldl_dictSet (baseMatches bases) ns hnd

/-- What the base phase leaves under a name: the wrapper of the last matching
base attribute of that name, or the original namespace binding. -/
theorem dictGet_basePhase (bases : List NS) (ns : NS) (name : String) :
    dictGet (basePhase bases ns) name =
      match lastHit name (baseMatches bases) with
      | some c => some (mkWrapper c)
      | none => dictGet ns name :=
  dictGet_foldl_wrap (baseMatches bases) ns name

/-- A wrapper is never a coroutine function, so the namespace-phase filter
always skips a value installed by the base phase. -/
theorem testMatch_mkWrapper_false (name : String) (c : Callable) :
    testMatch name (mkWrapper c) = false := by
  cases c <;> simp [testMatch, mkWrapper, isCoroutineFunction]

/-- The central description of `TestCaseMeta.__new__`'s effect on the
namespace (for a well-formed namespace, i.e. unique keys): a name's final
binding is determined by what the base phase left there — wrapped once more
when that value still matches the filter, kept as-is otherwise. -/
theorem dictGet_tcm_new (bases : List NS) (ns : NS) (name : String)
    (hnd : (nsKeys ns).Nodup) :
    dictGet (tcm_new bases ns) name =
      match dictGet (basePhase bases ns) name with
      | some c => if testMatch name c then some (mkWrapper c) else some c
      | none => none := by
  have hnd1 := basePhase_keys_nodup bases ns hnd
  unfold tcm_new
  rw [foldl_ite_filter (fun p => testMatch p.1 p.2)
    (fun a p => dictSet a p.1 (mkWrapper p.2)) (basePhase bases ns)
    (basePhase bases ns)]
  rw [dictGet_foldl_wrap]
  cases hget : dictGet (basePhase bases ns) name with
  | some c =>
    rw [lastHit_filter_of_nodup (basePhase bases ns) name c _ hnd1 hget]
    by_cases hm : testMatch name c
    · simp [hm]
    · simp [hm, hget]
  | none =>
    have hnot := (dictGet_eq_none_iff (basePhase bases ns) name).mp hget
    rw [lastHit_eq_none_of_not_mem_keys name _
      (keys_filter_subset (basePhase bases ns) _ name hnot)]

/-! The synchronous wrapper built by `TestCaseMeta.__new__` around each
matched method:

    coro = __meth__(self, *args, **kwargs)
    timeout = getattr(__meth__, '__timeout__', 60.0)
    if timeout:
        coro = asyncio.wait_for(coro, timeout, loop=self.loop)
    try:
        self.loop.run_until_complete(coro)
    except asyncio.TimeoutError:
        raise self.failureException(
            'test timed out after {} seconds'.format(timeout)) from None
-/

/-- Models `getattr(__meth__, '__timeout__', 60.0)`: the attribute value when
present (a number or `None`), else the default `60.0`. -/
def resolvedTimeout (m : Method) : Option Rat :=
  match m.timeoutAttr with
  | none => some 60
  | some v => v

/-- Python truthiness of a number-or-`None` value: `None`, `0` and `0.0` are
falsy, every other number is truthy. -/
def pyTruthy : Option Rat → Bool
  | none => false
  | some q => decide (q ≠ 0)

/-- The `asyncio.TimeoutError` produced when `asyncio.wait_for` cancels a
computation that did not finish within the deadline. -/
def timeoutExc : PyExc :=
  ⟨⟨"TimeoutError", ""⟩, none, false, none⟩

/-- Models `asyncio.wait_for(coro, t)`: if the computation finishes (returns or
raises) within the deadline its behaviour is unchanged; otherwise it is
cancelled at the deadline and `asyncio.TimeoutError` is raised. -/
def wait_for (c : Coro) (t : Rat) : Coro :=
  if c.duration ≤ t then c else ⟨t, .error timeoutExc⟩

/-- Python string conversion of the resolved timeout value, as used by
`'...'.format(timeout)` (`None` prints as `"None"`). -/
def pyFormatTimeout : Option Rat → String
  | none => "None"
  | some q => toString q

/-- The message of the failure raised on timeout. -/
def timeoutFailMsg (t : Option Rat) : String :=
  "test timed out after " ++ pyFormatTimeout t ++ " seconds"

/-- The `self.failureException` raised by the wrapper's `except
asyncio.TimeoutError` clause, with `raise ... from None`: no `__cause__`, the
context suppressed, and the caught exception recorded as `__context__`. -/
def failureFor (t : Option Rat) (caught : ExcInfo) : PyExc :=
  ⟨⟨"failureException", timeoutFailMsg t⟩, none, true, some caught⟩

/-- Running the synchronous wrapper: build the coroutine, resolve the
timeout, wrap with `asyncio.wait_for` when the timeout is truthy, run to
completion on the class's loop, and convert any `asyncio.TimeoutError` into
`self.failureException` raised `from None`. -/
def runWrapper (m : Method) : RunResult :=
  let timeout := resolvedTimeout m
  let coro := if pyTruthy timeout then wait_for m.body (timeout.getD 0) else m.body
  match coro.outcome with
  | .ok => .ok
  | .error e =>
    if e.info.kind = "TimeoutError" then
      .raised (failureFor timeout e.info)
    else .raised e

/-! Source of `TestCase.assertRunUnder(delta)`:

    st = time.monotonic()
    try:
        yield
    finally:
        elapsed = time.monotonic() - st
        if elapsed > delta:
            raise AssertionError(...)

The wrapped block is modelled by how long it runs and whether it returns or
raises.  Raising inside the `finally` clause while the block's exception is in
flight replaces that exception (Python records it as `__context__`). -/

/-- Behaviour of a synchronous block wrapped by a context-manager helper. -/
structure Block where
  duration : Rat
  outcome : Outcome
deriving DecidableEq

/-- The message of the timing assertion: reports elapsed time and the
expected bound (the `{:0.3f}` float formatting is abstracted to the exact
rational). -/
def runUnderMsg (elapsed delta : Rat) : String :=
  "running block took " ++ toString elapsed ++ "s which is longer " ++
    "than the expected maximum of " ++ toString delta ++ "s"

/-- The `__context__` recorded on an exception raised in the `finally`
clause: the block's own in-flight exception, if any. -/
def blockContextInfo (b : Block) : Option ExcInfo :=
  match b.outcome with
  | .ok => none
  | .error e => some e.info

/-- Models `TestCase.assertRunUnder(delta)` around a block: measure elapsed time in
the `finally` clause; if it exceeds `delta`, raise `AssertionError` (which
replaces any in-flight exception from the block); otherwise the block's own
outcome propagates. -/
def assertRunUnder (delta : Rat) (b : Block) : RunResult :=
  let elapsed := b.duration
  if delta < elapsed then
    .raised ⟨⟨"AssertionError", runUnderMsg elapsed delta⟩, none, false,
      blockContextInfo b⟩
  else
    match b.outcome with
    | .ok => .ok
    | .error e => .raised e

/-! Source of `TestCase.assertLoopErrorHandlerCalled(msg_re)`:

    contexts = []
    def handler(loop, ctx): contexts.append(ctx)
    old_handler = self.loop.get_exception_handler()
    self.loop.set_exception_handler(handler)
    try:
        yield
        for ctx in contexts:
            msg = ctx.get('message')
            if msg and re.search(msg_re, msg):
                return
        raise AssertionError(...)
    finally:
        self.loop.set_exception_handler(old_handler)

`re.search` is kept abstract as a `String → String → Bool` parameter (pattern
first); the block is modelled by its outcome and the list of contexts the
capturing handler accumulated while it ran. -/

/-- A context passed to `loop.call_exception_handler`: only its optional
`'message'` field is consulted. -/
structure HandlerCtx where
  message : Option String
deriving DecidableEq

/-- Behaviour of the block wrapped by `assertLoopErrorHandlerCalled`: its
outcome and the handler-invocation contexts captured while it ran. -/
structure LoopBlock where
  outcome : Outcome
  contexts : List HandlerCtx
deriving DecidableEq

/-- An exception handler installed on the loop: the capturing closure
`handler`, or some other handler value (identified by a number). -/
inductive HandlerV where
  | capturing
  | outside (id : Nat)
deriving DecidableEq

/-- The message of the assertion raised when no captured context matches
(the `{!r}` pattern formatting is abstracted to the raw pattern). -/
def noMatchMsg (msg_re : String) : String :=
  "no message matching " ++ msg_re ++
    " was logged with loop.call_exception_handler()"

/-- The per-context test in the scan: `msg = ctx.get('message')` followed by
`if msg and re.search(msg_re, msg)` — a missing or empty (falsy) message never
matches. -/
def ctxMatches (search : String → String → Bool) (msg_re : String)
    (ctx : HandlerCtx) : Bool :=
  match ctx.message with
  | some m => (m != "") && search msg_re m
  | none => false

/-- Observable trace of one `assertLoopErrorHandlerCalled` use: the handler
installed while the block ran, the outcome, and the handler left installed
afterwards. -/
structure ALEHRun where
  handlerDuring : Option HandlerV
  result : RunResult
  handlerAfter : Option HandlerV
deriving DecidableEq

/-- Models `TestCase.assertLoopErrorHandlerCalled(msg_re)` around a block: installs
the capturing handler, runs the block; on normal completion scans the captured
contexts and raises `AssertionError` when none matches; an exception from the
block propagates (the scan is skipped); the `finally` clause restores the
previous handler on every path. -/
def assertLoopErrorHandlerCalled (search : String → String → Bool)
    (msg_re : String) (old_handler : Option HandlerV) (b : LoopBlock) :
    ALEHRun :=
  let result :=
    match b.outcome with
    | .error e => RunResult.raised e
    | .ok =>
      if b.contexts.any (ctxMatches search msg_re) then RunResult.ok
      else RunResult.raised ⟨⟨"AssertionError", noMatchMsg msg_re⟩, none,
        false, none⟩
  ⟨some HandlerV.capturing, result, old_handler⟩

/-- Does the first character list occur contiguously inside the second? -/
def hasChunk (pat : List Char) : List Char → Bool
  | [] => chunkEq pat []
  | c :: rest => chunkEq pat (c :: rest) || hasChunk pat rest

/-- A concrete instance of `re.search` usable on literal patterns: does the
pattern occur as a contiguous substring of the string? (`re.search` scans for
a match anywhere in the string, unlike a full match.) -/
def substrSearch (pat s : String) : Bool :=
  hasChunk pat.data s.data

/-! The process-wide default-cluster provider:

    _default_cluster = None

    def _start_cluster(ClusterCls, cluster_kwargs, server_settings):
        cluster = ClusterCls(**cluster_kwargs)
        cluster.init()
        cluster.trust_local_connections()
        cluster.start(port='dynamic', server_settings=server_settings)
        atexit.register(_shutdown_cluster, cluster)
        return cluster

    def _start_default_cluster(server_settings={}):
        global _default_cluster
        if _default_cluster is None:
            pg_host = os.environ.get('PGHOST')
            if pg_host:
                _default_cluster = pg_cluster.RunningCluster()
            else:
                _default_cluster = _start_cluster(
                    pg_cluster.TempCluster, {}, server_settings)
        return _default_cluster

The world state carries the `_default_cluster` global, the `PGHOST`
environment variable, a fresh-identity counter (object identity), and a log
of the side effects performed on cluster collaborators. -/

/-- The cluster class used: `RunningCluster` (external) or `TempCluster`. -/
inductive ClusterKind where
  | runningCluster
  | tempCluster
deriving DecidableEq

/-- Server settings passed to `cluster.start`. -/
abbrev Settings := List (String × String)

/-- A cluster collaborator object, identified by `id` (object identity),
recording which lifecycle calls it has received. -/
structure Cluster where
  id : Nat
  kind : ClusterKind
  inited : Bool
  trustedLocal : Bool
  startedSettings : Option Settings
deriving DecidableEq

/-- A side effect performed on a cluster collaborator. -/
inductive Effect where
  | clusterInit (id : Nat)
  | trustLocal (id : Nat)
  | clusterStart (id : Nat) (settings : Settings)
  | atexitRegister (id : Nat)
deriving DecidableEq

/-- Process-wide state seen by the provider. -/
structure World where
  defaultCluster : Option Cluster
  pghost : Option String
  nextId : Nat
  effects : List Effect
deriving DecidableEq

/-- Python truthiness of `os.environ.get(...)`: missing or empty is falsy. -/
def pyTruthyStr : Option String → Bool
  | none => false
  | some s => s != ""

/-- Models `_start_cluster(ClusterCls, cluster_kwargs, server_settings)`: construct
a fresh cluster object, `init()` it, trust local connections, `start()` it
with the given server settings, and register its shutdown with `atexit`.
(`cluster_kwargs` is always `{}` at the default-cluster call site and carries
no modelled behaviour.) -/
def start_cluster (kind : ClusterKind) (server_settings : Settings)
    (w : World) : Cluster × World :=
  let cid := w.nextId
  let cluster : Cluster := ⟨cid, kind, true, true, some server_settings⟩
  (cluster,
    ⟨w.defaultCluster, w.pghost, w.nextId + 1,
      w.effects ++ [.clusterInit cid, .trustLocal cid,
        .clusterStart cid server_settings, .atexitRegister cid]⟩)

/-- Models `_start_default_cluster(server_settings)`: create (or attach to) the
process-wide cluster on first call, return the stored instance ever after. -/
def start_default_cluster (server_settings : Settings) (w : World) :
    Cluster × World :=
  match w.defaultCluster with
  | some c => (c, w)
  | none =>
    if pyTruthyStr w.pghost then
      let cluster : Cluster := ⟨w.nextId, .runningCluster, false, false, none⟩
      (cluster, ⟨some cluster, w.pghost, w.nextId + 1, w.effects⟩)
    else
      let (cluster, w1) := start_cluster .tempCluster server_settings w
      (cluster, ⟨some cluster, w1.pghost, w1.nextId, w1.effects⟩)

/-! Connection-spec methods.  Python dicts are heap objects: the harness
methods below are specified by whether they mutate the cluster's own stored
spec, so dicts live in an explicit heap of cells and methods thread the
heap. -/

/-- A connection-spec value: a string (host, user, ...) or a number (port). -/
inductive SpecVal where
  | str (s : String)
  | num (n : Nat)
deriving DecidableEq

/-- A connection-spec mapping. -/
abbrev SpecDict := List (String × SpecVal)

/-- A heap of dict objects; a reference is an index into `cells`. -/
structure Heap where
  cells : List SpecDict
deriving DecidableEq

/-- Allocate a fresh dict, returning its reference. -/
def Heap.alloc (h : Heap) (d : SpecDict) : Heap × Nat :=
  (⟨h.cells ++ [d]⟩, h.cells.length)

/-- Dereference (an invalid reference reads as the empty dict). -/
def Heap.read (h : Heap) (r : Nat) : SpecDict :=
  (h.cells.get? r).getD []

/-- Overwrite the dict behind a reference. -/
def Heap.write (h : Heap) (r : Nat) (d : SpecDict) : Heap :=
  ⟨h.cells.set r d⟩

/-- The cluster object as seen by the connection-spec methods: it owns one
stored connection-spec dict on the heap. -/
structure ClusterObj where
  specRef : Nat
deriving DecidableEq

/-- Modelled from the spec: `Cluster.get_connection_spec()` lives in
`asyncpg/cluster.py`, which is not part of the sources here.  §6 declares the
cluster collaborator's `get_connection_spec() -> mapping`, and §4.4 states
that the harness-level `get_connection_spec()` "returns a copy of the
cluster's connection spec" — so the collaborator hands out a fresh mapping
holding the cluster's stored connection parameters, not the stored dict
itself. -/
def cluster_get_connection_spec (h : Heap) (c : ClusterObj) : Heap × Nat :=
  h.alloc (h.read c.specRef)

/-- Models `ClusterTestCase.get_connection_spec()`: simply
`return cls.cluster.get_connection_spec()`. -/
def ClusterTestCase_get_connection_spec (h : Heap) (c : ClusterObj) :
    Heap × Nat :=
  cluster_get_connection_spec h c

/-- Models `ClusterTestCase.create_pool(**kwargs)`: fetch the connection spec,
`conn_spec.update(kwargs)` in place, and hand the merged spec to the pool
constructor (returned here for inspection). -/
def ClusterTestCase_create_pool (h : Heap) (c : ClusterObj)
    (kwargs : SpecDict) : Heap × Nat :=
  let hr := ClusterTestCase_get_connection_spec h c
  let h2 := hr.1.write hr.2 (dictUpdate (hr.1.read hr.2) kwargs)
  (h2, hr.2)

/-- Models `ClusterTestCase.connect(**kwargs)`: same spec handling as
`create_pool`, the merged spec is passed to `pg_connection.connect`. -/
def ClusterTestCase_connect (h : Heap) (c : ClusterObj) (kwargs : SpecDict) :
    Heap × Nat :=
  let hr := ClusterTestCase_get_connection_spec h c
  let h2 := hr.1.write hr.2 (dictUpdate (hr.1.read hr.2) kwargs)
  (h2, hr.2)

/-- One harness call that merges per-call overrides into a fetched spec. -/
inductive TCCall where
  | connectCall (kwargs : SpecDict)
  | createPoolCall (kwargs : SpecDict)
deriving DecidableEq

/-- Run a sequence of `connect`/`create_pool` calls, threading the heap. -/
def runCalls (c : ClusterObj) (h : Heap) : List TCCall → Heap
  | [] => h
  | .connectCall k :: rest => runCalls c (ClusterTestCase_connect h c k).1 rest
  | .createPoolCall k :: rest =>
    runCalls c (ClusterTestCase_create_pool h c k).1 rest

/-- The proxy object: its listening address and port (read-only attributes
of the started `TCPFuzzingProxy`). -/
structure ProxyObj where
  listening_addr : String
  listening_port : Nat
deriving DecidableEq

/-- Models `ProxiedClusterTestCase.get_connection_spec()`:

    conn_spec = cls.cluster.get_connection_spec()
    conn_spec['host'] = cls.proxy.listening_addr
    conn_spec['port'] = cls.proxy.listening_port
    return conn_spec
-/
def ProxiedClusterTestCase_get_connection_spec (h : Heap) (c : ClusterObj)
    (p : ProxyObj) : Heap × Nat :=
  let hr := cluster_get_connection_spec h c
  let h2 := hr.1.write hr.2
    (dictSet (hr.1.read hr.2) "host" (.str p.listening_addr))
  let h3 := h2.write hr.2
    (dictSet (h2.read hr.2) "port" (.num p.listening_port))
  (h3, hr.2)

/-! Class teardown order.

    class TestCase(...):
        @classmethod
        def tearDownClass(cls):
            cls.loop.close()
            asyncio.set_event_loop(None)

    class ProxiedClusterTestCase(ClusterTestCase):
        @classmethod
        def tearDownClass(cls):
            cls.loop.run_until_complete(cls.proxy.stop())
            super().tearDownClass()

`ClusterTestCase` does not override `tearDownClass`, so the `super()` chain
from `ProxiedClusterTestCase` runs `TestCase.tearDownClass`. -/

/-- An observable step of class teardown. -/
inductive TDEvent where
  | proxyStop
  | loopClose
  | clearCurrentEventLoop
deriving DecidableEq

/-- Models `TestCase.tearDownClass`: close the loop, clear the ambient loop. -/
def TestCase_tearDownClass : List TDEvent :=
  [.loopClose, .clearCurrentEventLoop]

/-- Models `ProxiedClusterTestCase.tearDownClass`: stop the proxy on the loop, then
run the superclass teardown chain. -/
def ProxiedClusterTestCase_tearDownClass : List TDEvent :=
  [TDEvent.proxyStop] ++ TestCase_tearDownClass

/-- Position of the first occurrence of an event in a teardown trace. -/
def firstIdx (e : TDEvent) : List TDEvent → Nat
  | [] => 0
  | x :: rest => if x = e then 0 else firstIdx e rest + 1

/-! Helper lemmas shared by the metaclass theorems. -/

theorem lastHit_baseMatches_eq_none (bases : List NS) (name : String)
    (h : ∀ c : Callable, testMatch name c = false) :
    lastHit name (baseMatches bases) = none := by
  induction bases with
  | nil => rfl
  | cons b rest ih =>
    have hb : lastHit name (b.filter (fun p => testMatch p.1 p.2)) = none := by
      apply lastHit_filter_eq_none
      intro p _ hpn
      rw [hpn]
      exact h p.2
    have : baseMatches (b :: rest) =
        b.filter (fun p => testMatch p.1 p.2) ++ baseMatches rest := by
      simp [baseMatches]
    rw [this, lastHit_append_of_none name _ _ ih]
    exact hb

theorem testMatch_false_of_name (name : String)
    (h : pyStartsWith name "test_" = false) (c : Callable) :
    testMatch name c = false := by
  simp [testMatch, h]

/-! Claim theorems. -/

/-- Claim C1 (counterexample): it is not true that every attribute that does
not match the `test_` prefix or is not a coroutine function is left
untouched.  Concretely, a namespace attribute `test_a` whose value is not a
coroutine function (method id 1) is nevertheless overwritten by the wrapper of
a same-named coroutine method inherited from a base class (method id 0). -/
theorem tcm_new_untouched_counterexample :
    isCoroutineFunction (Callable.plain ⟨1, false, none, ⟨0, .ok⟩⟩) = false
    ∧ dictGet [("test_a", Callable.plain ⟨1, false, none, ⟨0, .ok⟩⟩)] "test_a"
        = some (Callable.plain ⟨1, false, none, ⟨0, .ok⟩⟩)
    ∧ dictGet
        (tcm_new [[("test_a", Callable.plain ⟨0, true, none, ⟨0, .ok⟩⟩)]]
          [("test_a", Callable.plain ⟨1, false, none, ⟨0, .ok⟩⟩)])
        "test_a"
        = some (Callable.wrapped ⟨0, true, none, ⟨0, .ok⟩⟩) := by
  decide

/-- Claim C1 (amended): in the class built by `TestCaseMeta` (namespace a
dict: unique keys), (1) a namespace attribute named `test_*` holding a
coroutine function, with no same-named coroutine method in any base class, is
replaced by the synchronous wrapper around it; (2) attributes whose name does
not start with `test_` are left untouched; (3) a namespace attribute named
`test_*` that is not a coroutine function is likewise left untouched when no
base class contributes a coroutine method under the same name; (4) whenever
some base class does contribute a coroutine `test_*` method, the wrapper of
the (last such) inherited method is what ends up stored under that name —
replacing a namespace coroutine, a namespace non-coroutine value, or nothing
at all, because the base-phase assignment lands before the generator's
`ns.items()` scan, which then skips the installed non-coroutine wrapper. -/
theorem tcm_new_transform (bases : List NS) (ns : NS) (name : String)
    (hnd : (nsKeys ns).Nodup) :
    (∀ m : Method, dictGet ns name = some (.plain m) →
        testMatch name (.plain m) = true →
        lastHit name (baseMatches bases) = none →
        dictGet (tcm_new bases ns) name = some (.wrapped m)
        ∧ isCoroutineFunction (.wrapped m) = false)
    ∧ (pyStartsWith name "test_" = false →
        dictGet (tcm_new bases ns) name = dictGet ns name)
    ∧ (∀ c : Callable, dictGet ns name = some c → testMatch name c = false →
        lastHit name (baseMatches bases) = none →
        dictGet (tcm_new bases ns) name = dictGet ns name)
    ∧ (∀ cb : Callable, lastHit name (baseMatches bases) = some cb →
        dictGet (tcm_new bases ns) name = some (mkWrapper cb)
        ∧ isCoroutineFunction (mkWrapper cb) = false) := by
  refine ⟨?_, ?_, ?_, ?_⟩
  · intro m hget hmatch hbase
    refine ⟨?_, rfl⟩
    rw [dictGet_tcm_new bases ns name hnd, dictGet_basePhase, hbase, hget]
    simp [hmatch, mkWrapper]
  · intro hname
    have hall := testMatch_false_of_name name hname
    have hbase := lastHit_baseMatches_eq_none bases name hall
    rw [dictGet_tcm_new bases ns name hnd, dictGet_basePhase, hbase]
    cases hget : dictGet ns name with
    | some c => simp [hall c]
    | none => simp
  · intro c hget hmatch hbase
    rw [dictGet_tcm_new bases ns name hnd, dictGet_basePhase, hbase, hget]
    simp [hmatch]
  · intro cb hbase
    refine ⟨?_, by cases cb <;> rfl⟩
    rw [dictGet_tcm_new bases ns name hnd, dictGet_basePhase, hbase]
    simp [testMatch_mkWrapper_false]

/-- Claim C1 (witness): the amended theorem at concrete inputs — a namespace
coroutine `test_a` with no base collision is wrapped, a non-`test_` attribute
`helper` is untouched, and an inherited coroutine `test_b` absent from the
namespace is installed as its wrapper. -/
theorem tcm_new_transform_witness :
    (dictGet
        (tcm_new [[("test_b", Callable.plain ⟨2, true, none, ⟨0, .ok⟩⟩)]]
          [("test_a", Callable.plain ⟨0, true, none, ⟨0, .ok⟩⟩),
           ("helper", Callable.plain ⟨1, false, none, ⟨0, .ok⟩⟩)])
        "test_a"
        = some (Callable.wrapped ⟨0, true, none, ⟨0, .ok⟩⟩))
    ∧ (dictGet
        (tcm_new [[("test_b", Callable.plain ⟨2, true, none, ⟨0, .ok⟩⟩)]]
          [("test_a", Callable.plain ⟨0, true, none, ⟨0, .ok⟩⟩),
           ("helper", Callable.plain ⟨1, false, none, ⟨0, .ok⟩⟩)])
        "helper"
        = dictGet
            [("test_a", Callable.plain ⟨0, true, none, ⟨0, .ok⟩⟩),
             ("helper", Callable.plain ⟨1, false, none, ⟨0, .ok⟩⟩)]
            "helper")
    ∧ (dictGet
        (tcm_new [[("test_b", Callable.plain ⟨2, true, none, ⟨0, .ok⟩⟩)]]
          [("test_a", Callable.plain ⟨0, true, none, ⟨0, .ok⟩⟩),
           ("helper", Callable.plain ⟨1, false, none, ⟨0, .ok⟩⟩)])
        "test_b"
        = some (Callable.wrapped ⟨2, true, none, ⟨0, .ok⟩⟩)) :=
  ⟨((tcm_new_transform
      [[("test_b", Callable.plain ⟨2, true, none, ⟨0, .ok⟩⟩)]]
      [("test_a", Callable.plain ⟨0, true, none, ⟨0, .ok⟩⟩),
       ("helper", Callable.plain ⟨1, false, none, ⟨0, .ok⟩⟩)]
      "test_a" (by decide)).1
      ⟨0, true, none, ⟨0, .ok⟩⟩ (by decide) (by decide) (by decide)).1,
   (tcm_new_transform
      [[("test_b", Callable.plain ⟨2, true, none, ⟨0, .ok⟩⟩)]]
      [("test_a", Callable.plain ⟨0, true, none, ⟨0, .ok⟩⟩),
       ("helper", Callable.plain ⟨1, false, none, ⟨0, .ok⟩⟩)]
      "helper" (by decide)).2.1 (by decide),
   ((tcm_new_transform
      [[("test_b", Callable.plain ⟨2, true, none, ⟨0, .ok⟩⟩)]]
      [("test_a", Callable.plain ⟨0, true, none, ⟨0, .ok⟩⟩),
       ("helper", Callable.plain ⟨1, false, none, ⟨0, .ok⟩⟩)]
      "test_b" (by decide)).2.2.2
      (Callable.plain ⟨2, true, none, ⟨0, .ok⟩⟩) (by decide)).1⟩

/-- Claim C10 (counterexample): with `test_x` a coroutine in the base class
(method id 5) and redeclared as a coroutine in the namespace (method id 6),
the stored wrapper wraps the *base's* method id 5, not the namespace's id 6:
the base-phase assignment replaced the namespace's coroutine before the
generator's `ns.items()` scan, which then skipped the non-coroutine
wrapper. -/
theorem tcm_new_collision_counterexample :
    dictGet
      (tcm_new [[("test_x", Callable.plain ⟨5, true, none, ⟨0, .ok⟩⟩)]]
        [("test_x", Callable.plain ⟨6, true, none, ⟨0, .ok⟩⟩)])
      "test_x"
      = some (Callable.wrapped ⟨5, true, none, ⟨0, .ok⟩⟩)
    ∧ dictGet
      (tcm_new [[("test_x", Callable.plain ⟨5, true, none, ⟨0, .ok⟩⟩)]]
        [("test_x", Callable.plain ⟨6, true, none, ⟨0, .ok⟩⟩)])
      "test_x"
      ≠ some (Callable.wrapped ⟨6, true, none, ⟨0, .ok⟩⟩) := by
  decide

/-- Claim C10 (amended): when a `test_*` coroutine method name is bound both
in a base class and in the new namespace, the wrapper finally stored under
that name wraps the *base class's* method, not the namespace's: `__new__`'s
base-phase assignment overwrites the namespace's coroutine with the
non-coroutine wrapper before the lazily-consumed generator reaches its
`ns.items()` loop, so that loop skips the entry and the base's wrapper
survives — for any bases contributing the name. -/
theorem tcm_new_collision_base_wins (bases : List NS) (ns : NS)
    (name : String) (c cb : Callable) (hnd : (nsKeys ns).Nodup)
    (_hget : dictGet ns name = some c) (_hmatch : testMatch name c = true)
    (hbase : lastHit name (baseMatches bases) = some cb) :
    dictGet (tcm_new bases ns) name = some (mkWrapper cb) := by
  rw [dictGet_tcm_new bases ns name hnd, dictGet_basePhase, hbase]
  simp [testMatch_mkWrapper_false]

/-- Claim C10 (witness): the amended theorem at the counterexample's input —
base coroutine id 5 colliding with namespace coroutine id 6 stores the
wrapper of id 5. -/
theorem tcm_new_collision_base_wins_witness :
    dictGet
      (tcm_new [[("test_x", Callable.plain ⟨5, true, none, ⟨0, .ok⟩⟩)]]
        [("test_x", Callable.plain ⟨6, true, none, ⟨0, .ok⟩⟩)])
      "test_x"
      = some (Callable.wrapped ⟨5, true, none, ⟨0, .ok⟩⟩) :=
  tcm_new_collision_base_wins
    [[("test_x", Callable.plain ⟨5, true, none, ⟨0, .ok⟩⟩)]]
    [("test_x", Callable.plain ⟨6, true, none, ⟨0, .ok⟩⟩)]
    "test_x" (Callable.plain ⟨6, true, none, ⟨0, .ok⟩⟩)
    (Callable.plain ⟨5, true, none, ⟨0, .ok⟩⟩)
    (by decide) (by decide) (by decide) (by decide)

/-- Claim C2: the deadline enforced by the wrapper is the `__timeout__`
attribute when present, else `60.0`: with no attribute, a body running past 60
fails with the 60-second timeout failure and a body finishing within 60
returns normally; with attribute `q ≠ 0`, the same at bound `q`; and when the
resolved deadline is falsy (`None` or `0`) no `wait_for` wrapper is applied —
the result is independent of the body's duration. -/
theorem runWrapper_deadline (m : Method) (q d : Rat) :
    (m.timeoutAttr = none → 60 < m.body.duration →
      runWrapper m = .raised (failureFor (some 60) timeoutExc.info))
    ∧ (m.timeoutAttr = none → m.body.duration ≤ 60 → m.body.outcome = .ok →
      runWrapper m = .ok)
    ∧ (m.timeoutAttr = some (some q) → q ≠ 0 → q < m.body.duration →
      runWrapper m = .raised (failureFor (some q) timeoutExc.info))
    ∧ (m.timeoutAttr = some (some q) → q ≠ 0 → m.body.duration ≤ q →
      m.body.outcome = .ok → runWrapper m = .ok)
    ∧ (pyTruthy (resolvedTimeout m) = false →
      runWrapper ⟨m.id, m.isCoroutine, m.timeoutAttr, ⟨d, m.body.outcome⟩⟩
        = runWrapper m) := by
  refine ⟨?_, ?_, ?_, ?_, ?_⟩
  · intro h1 h2
    have ht : resolvedTimeout m = some 60 := by simp [resolvedTimeout, h1]
    have hnle : ¬ (m.body.duration ≤ 60) := not_le.mpr h2
    have htr : pyTruthy (some (60 : Rat)) = true := by norm_num [pyTruthy]
    simp [runWrapper, ht, htr, wait_for, hnle, timeoutExc]
  · intro h1 h2 h3
    have ht : resolvedTimeout m = some 60 := by simp [resolvedTimeout, h1]
    have htr : pyTruthy (some (60 : Rat)) = true := by norm_num [pyTruthy]
    simp [runWrapper, ht, htr, wait_for, h2, h3]
  · intro h1 h2 h3
    have ht : resolvedTimeout m = some q := by simp [resolvedTimeout, h1]
    have hnle : ¬ (m.body.duration ≤ q) := not_le.mpr h3
    have htr : pyTruthy (some q) = true := by simp [pyTruthy, h2]
    simp [runWrapper, ht, htr, wait_for, hnle, timeoutExc]
  · intro h1 h2 h3 h4
    have ht : resolvedTimeout m = some q := by simp [resolvedTimeout, h1]
    have htr : pyTruthy (some q) = true := by simp [pyTruthy, h2]
    simp [runWrapper, ht, htr, wait_for, h3, h4]
  · intro h5
    have ht : resolvedTimeout
        (⟨m.id, m.isCoroutine, m.timeoutAttr, ⟨d, m.body.outcome⟩⟩ : Method)
        = resolvedTimeout m := rfl
    simp [runWrapper, ht, h5]

/-- Claim C2 (witness): concrete checks — no attribute and duration 61 fails
at 60; no attribute and duration 59 passes; attribute 5 and duration 6 fails
at 5; attribute 5 and duration 4 passes; attribute 0 gives a result
independent of duration. -/
theorem runWrapper_deadline_witness :
    (runWrapper ⟨0, true, none, ⟨61, .ok⟩⟩
      = .raised (failureFor (some 60) timeoutExc.info))
    ∧ (runWrapper ⟨0, true, none, ⟨59, .ok⟩⟩ = .ok)
    ∧ (runWrapper ⟨0, true, some (some 5), ⟨6, .ok⟩⟩
      = .raised (failureFor (some 5) timeoutExc.info))
    ∧ (runWrapper ⟨0, true, some (some 5), ⟨4, .ok⟩⟩ = .ok)
    ∧ (runWrapper ⟨0, true, some (some 0), ⟨1000, .ok⟩⟩
      = runWrapper ⟨0, true, some (some 0), ⟨2, .ok⟩⟩) :=
  ⟨(runWrapper_deadline ⟨0, true, none, ⟨61, .ok⟩⟩ 5 0).1 rfl (by norm_num),
   (runWrapper_deadline ⟨0, true, none, ⟨59, .ok⟩⟩ 5 0).2.1 rfl
     (by norm_num) rfl,
   (runWrapper_deadline ⟨0, true, some (some 5), ⟨6, .ok⟩⟩ 5 0).2.2.1 rfl
     (by norm_num) (by norm_num),
   (runWrapper_deadline ⟨0, true, some (some 5), ⟨4, .ok⟩⟩ 5 0).2.2.2.1 rfl
     (by norm_num) (by norm_num) rfl,
   (runWrapper_deadline ⟨0, true, some (some 0), ⟨2, .ok⟩⟩ 5 1000).2.2.2.2
     (by norm_num [pyTruthy, resolvedTimeout])⟩

/-- Claim C3 (counterexample): an `asyncio.TimeoutError` raised by the test
body itself, well within the deadline (duration 1, deadline 60), does not
propagate unchanged: the `except asyncio.TimeoutError` clause cannot tell it
from a deadline expiry and converts it to the failure exception. -/
theorem runWrapper_body_timeout_counterexample :
    runWrapper ⟨0, true, none,
        ⟨1, .error ⟨⟨"TimeoutError", "raised by body"⟩, none, false, none⟩⟩⟩
      = .raised (failureFor (some 60) ⟨"TimeoutError", "raised by body"⟩)
    ∧ runWrapper ⟨0, true, none,
        ⟨1, .error ⟨⟨"TimeoutError", "raised by body"⟩, none, false, none⟩⟩⟩
      ≠ .raised ⟨⟨"TimeoutError", "raised by body"⟩, none, false, none⟩ := by
  decide

/-- Claim C3 (amended): on deadline expiry the wrapper raises the test
framework's `failureException` whose message names the deadline, with no
`__cause__` and the context suppressed (`raise ... from None`); any other
exception raised by the test body propagates unchanged, except that an
`asyncio.TimeoutError` raised by the body itself is likewise converted to the
failure exception (indistinguishable from a deadline expiry, per the
counterexample). -/
theorem runWrapper_error_paths (m : Method) (q : Rat) (e : PyExc) :
    (pyTruthy (resolvedTimeout m) = true → resolvedTimeout m = some q →
      q < m.body.duration →
      runWrapper m = .raised (failureFor (some q) timeoutExc.info)
      ∧ (failureFor (some q) timeoutExc.info).info.kind = "failureException"
      ∧ (failureFor (some q) timeoutExc.info).info.msg = timeoutFailMsg (some q)
      ∧ (failureFor (some q) timeoutExc.info).cause = none
      ∧ (failureFor (some q) timeoutExc.info).suppressContext = true)
    ∧ (m.body.outcome = .error e → e.info.kind ≠ "TimeoutError" →
        (pyTruthy (resolvedTimeout m) = false
          ∨ ∃ t : Rat, resolvedTimeout m = some t ∧ m.body.duration ≤ t) →
        runWrapper m = .raised e)
    ∧ (m.body.outcome = .error e → e.info.kind = "TimeoutError" →
        (pyTruthy (resolvedTimeout m) = false
          ∨ ∃ t : Rat, resolvedTimeout m = some t ∧ m.body.duration ≤ t) →
        runWrapper m = .raised (failureFor (resolvedTimeout m) e.info)) := by
  refine ⟨?_, ?_, ?_⟩
  · intro htr hres hlt
    rw [hres] at htr
    have hnle : ¬ (m.body.duration ≤ q) := not_le.mpr hlt
    refine ⟨?_, rfl, rfl, rfl, rfl⟩
    simp [runWrapper, hres, htr, wait_for, hnle, timeoutExc]
  · intro herr hkind hin
    rcases hin with hfal | ⟨t, hres, hle⟩
    · simp [runWrapper, hfal, herr, hkind]
    · by_cases htr : pyTruthy (resolvedTimeout m) = true
      · rw [hres] at htr
        simp [runWrapper, hres, htr, wait_for, hle, herr, hkind]
      · have hfal : pyTruthy (resolvedTimeout m) = false := by
          simpa using htr
        simp [runWrapper, hfal, herr, hkind]
  · intro herr hkind hin
    rcases hin with hfal | ⟨t, hres, hle⟩
    · simp [runWrapper, hfal, herr, hkind]
    · by_cases htr : pyTruthy (resolvedTimeout m) = true
      · rw [hres] at htr
        simp [runWrapper, hres, htr, wait_for, hle, herr, hkind]
      · have hfal : pyTruthy (resolvedTimeout m) = false := by
          simpa using htr
        simp [runWrapper, hfal, herr, hkind]

/-- Claim C3 (witness): the deadline-expiry failure at deadline 2 and
duration 3; a `ValueError` within the deadline propagating unchanged; and a
body-raised `TimeoutError` under a falsy deadline still being converted. -/
theorem runWrapper_error_paths_witness :
    (runWrapper ⟨0, true, some (some 2), ⟨3, .ok⟩⟩
      = .raised (failureFor (some 2) timeoutExc.info)
      ∧ (failureFor (some 2) timeoutExc.info).cause = none
      ∧ (failureFor (some 2) timeoutExc.info).suppressContext = true)
    ∧ (runWrapper ⟨1, true, none,
        ⟨1, .error ⟨⟨"ValueError", "boom"⟩, none, false, none⟩⟩⟩
      = .raised ⟨⟨"ValueError", "boom"⟩, none, false, none⟩)
    ∧ (runWrapper ⟨2, true, some (some 0),
        ⟨1, .error ⟨⟨"TimeoutError", ""⟩, none, false, none⟩⟩⟩
      = .raised (failureFor (some 0) ⟨"TimeoutError", ""⟩)) :=
  ⟨(fun h => ⟨h.1, h.2.2.2.1, h.2.2.2.2⟩)
    ((runWrapper_error_paths ⟨0, true, some (some 2), ⟨3, .ok⟩⟩ 2
        ⟨⟨"ValueError", "boom"⟩, none, false, none⟩).1
      (by norm_num [pyTruthy, resolvedTimeout]) rfl (by norm_num)),
   (runWrapper_error_paths ⟨1, true, none,
        ⟨1, .error ⟨⟨"ValueError", "boom"⟩, none, false, none⟩⟩⟩ 2
        ⟨⟨"ValueError", "boom"⟩, none, false, none⟩).2.1 rfl (by decide)
     (Or.inr ⟨60, rfl, by norm_num⟩),
   (runWrapper_error_paths ⟨2, true, some (some 0),
        ⟨1, .error ⟨⟨"TimeoutError", ""⟩, none, false, none⟩⟩⟩ 2
        ⟨⟨"TimeoutError", ""⟩, none, false, none⟩).2.2 rfl rfl
     (Or.inl (by norm_num [pyTruthy, resolvedTimeout]))⟩

/-! Helper lemmas for the cluster provider and the heap model. -/

theorem start_default_cluster_stores (s : Settings) (w : World) :
    (start_default_cluster s w).2.defaultCluster
      = some (start_default_cluster s w).1 := by
  cases hw : w.defaultCluster with
  | some c => simp [start_default_cluster, hw]
  | none =>
    by_cases h : pyTruthyStr w.pghost
    · simp [start_default_cluster, hw, h]
    · simp [start_default_cluster, hw, h, start_cluster]

theorem start_default_cluster_of_some (s : Settings) (w : World) (c : Cluster)
    (h : w.defaultCluster = some c) : start_default_cluster s w = (c, w) := by
  simp [start_default_cluster, h]

theorem Heap.read_alloc_self (h : Heap) (d : SpecDict) :
    (h.alloc d).1.read (h.alloc d).2 = d := by
  simp [Heap.alloc, Heap.read, List.getElem?_concat_length]

theorem Heap.read_alloc_old (h : Heap) (d : SpecDict) (r : Nat)
    (hr : r < h.cells.length) : (h.alloc d).1.read r = h.read r := by
  simp [Heap.alloc, Heap.read, List.getElem?_append_left hr]

theorem Heap.read_write_self (h : Heap) (r : Nat) (d : SpecDict)
    (hr : r < h.cells.length) : (h.write r d).read r = d := by
  simp [Heap.write, Heap.read, List.getElem?_set_eq_of_lt d hr]

theorem Heap.read_write_ne (h : Heap) (r r' : Nat) (d : SpecDict)
    (hne : r ≠ r') : (h.write r d).read r' = h.read r' := by
  simp [Heap.write, Heap.read, List.getElem?_set_ne hne]

theorem Heap.length_write (h : Heap) (r : Nat) (d : SpecDict) :
    (h.write r d).cells.length = h.cells.length := by
  simp [Heap.write]

theorem Heap.length_alloc (h : Heap) (d : SpecDict) :
    (h.alloc d).1.cells.length = h.cells.length + 1 := by
  simp [Heap.alloc]

/-- One `connect`/`create_pool` call neither shrinks the heap nor changes any
dict already allocated in it (it only writes the freshly copied spec). -/
theorem connect_preserves (h : Heap) (c : ClusterObj) (kwargs : SpecDict)
    (r : Nat) (hr : r < h.cells.length) :
    (ClusterTestCase_connect h c kwargs).1.read r = h.read r
    ∧ h.cells.length < (ClusterTestCase_connect h c kwargs).1.cells.length := by
  unfold ClusterTestCase_connect ClusterTestCase_get_connection_spec
    cluster_get_connection_spec
  constructor
  · rw [Heap.read_write_ne _ _ _ _ (by simp [Heap.alloc]; omega),
      Heap.read_alloc_old _ _ _ hr]
  · rw [Heap.length_write, Heap.length_alloc]
    omega

/-- The mapping `ProxiedClusterTestCase.get_connection_spec` returns: the
cluster's spec contents with `host` and `port` reassigned. -/
theorem proxied_spec_read (h : Heap) (c : ClusterObj) (p : ProxyObj) :
    (ProxiedClusterTestCase_get_connection_spec h c p).1.read
      (ProxiedClusterTestCase_get_connection_spec h c p).2
    = dictSet
        (dictSet (h.read c.specRef) "host" (SpecVal.str p.listening_addr))
        "port" (SpecVal.num p.listening_port) := by
  simp [ProxiedClusterTestCase_get_connection_spec,
    cluster_get_connection_spec, Heap.alloc, Heap.read, Heap.write,
    List.getElem?_concat_length, Nat.lt_succ_self]

/-- Claim C4: the default-cluster provider is a process-wide singleton — a
second call, with any (possibly different) server settings, returns the very
cluster instance the first call returned and leaves the world unchanged (no
init/trust/start/atexit effects); and when the first call created the cluster
(no stored instance, no `PGHOST`), that cluster was started with the first
call's settings and produced exactly the first call's side effects. -/
theorem start_default_cluster_singleton (w : World) (s1 s2 : Settings) :
    ((start_default_cluster s2 (start_default_cluster s1 w).2).1
        = (start_default_cluster s1 w).1)
    ∧ ((start_default_cluster s2 (start_default_cluster s1 w).2).2
        = (start_default_cluster s1 w).2)
    ∧ (w.defaultCluster = none → pyTruthyStr w.pghost = false →
        (start_default_cluster s1 w).1.startedSettings = some s1
        ∧ (start_default_cluster s1 w).2.effects = w.effects ++
            [.clusterInit w.nextId, .trustLocal w.nextId,
             .clusterStart w.nextId s1, .atexitRegister w.nextId]) := by
  have hsecond := start_default_cluster_of_some s2
    (start_default_cluster s1 w).2 (start_default_cluster s1 w).1
    (start_default_cluster_stores s1 w)
  refine ⟨?_, ?_, ?_⟩
  · rw [hsecond]
  · rw [hsecond]
  · intro h1 h2
    constructor
    · simp [start_default_cluster, h1, h2, start_cluster]
    · simp [start_default_cluster, h1, h2, start_cluster]

/-- Claim C4 (witness): starting from a fresh world (no stored cluster, no
`PGHOST`), a first call with `log_connections` settings and a second call with
different settings return the same instance, change nothing on the second
call, and record the first call's settings and effects. -/
theorem start_default_cluster_singleton_witness :
    ((start_default_cluster [("fsync", "off")]
        (start_default_cluster [("log_connections", "on")]
          ⟨none, none, 0, []⟩).2).1
      = (start_default_cluster [("log_connections", "on")]
          ⟨none, none, 0, []⟩).1)
    ∧ ((start_default_cluster [("fsync", "off")]
        (start_default_cluster [("log_connections", "on")]
          ⟨none, none, 0, []⟩).2).2
      = (start_default_cluster [("log_connections", "on")]
          ⟨none, none, 0, []⟩).2)
    ∧ ((start_default_cluster [("log_connections", "on")]
          ⟨none, none, 0, []⟩).1.startedSettings
        = some [("log_connections", "on")]
      ∧ (start_default_cluster [("log_connections", "on")]
          ⟨none, none, 0, []⟩).2.effects
        = [] ++ [.clusterInit 0, .trustLocal 0,
            .clusterStart 0 [("log_connections", "on")],
            .atexitRegister 0]) :=
  ⟨(start_default_cluster_singleton ⟨none, none, 0, []⟩
      [("log_connections", "on")] [("fsync", "off")]).1,
   (start_default_cluster_singleton ⟨none, none, 0, []⟩
      [("log_connections", "on")] [("fsync", "off")]).2.1,
   (start_default_cluster_singleton ⟨none, none, 0, []⟩
      [("log_connections", "on")] [("fsync", "off")]).2.2 rfl rfl⟩

/-- Claim C5: the mapping returned by
`ProxiedClusterTestCase.get_connection_spec()` carries the proxy's listening
address under `host` and the proxy's listening port under `port`; whenever
the cluster's own stored host (or port) differs from the proxy's, the
returned entry is *not* the cluster's own value. -/
theorem proxied_connection_spec_points_at_proxy (h : Heap) (c : ClusterObj)
    (p : ProxyObj) :
    (dictGet
        ((ProxiedClusterTestCase_get_connection_spec h c p).1.read
          (ProxiedClusterTestCase_get_connection_spec h c p).2) "host"
      = some (SpecVal.str p.listening_addr))
    ∧ (dictGet
        ((ProxiedClusterTestCase_get_connection_spec h c p).1.read
          (ProxiedClusterTestCase_get_connection_spec h c p).2) "port"
      = some (SpecVal.num p.listening_port))
    ∧ (dictGet (h.read c.specRef) "host"
          ≠ some (SpecVal.str p.listening_addr) →
        dictGet
          ((ProxiedClusterTestCase_get_connection_spec h c p).1.read
            (ProxiedClusterTestCase_get_connection_spec h c p).2) "host"
        ≠ dictGet (h.read c.specRef) "host")
    ∧ (dictGet (h.read c.specRef) "port"
          ≠ some (SpecVal.num p.listening_port) →
        dictGet
          ((ProxiedClusterTestCase_get_connection_spec h c p).1.read
            (ProxiedClusterTestCase_get_connection_spec h c p).2) "port"
        ≠ dictGet (h.read c.specRef) "port") := by
  have hhost : dictGet
      ((ProxiedClusterTestCase_get_connection_spec h c p).1.read
        (ProxiedClusterTestCase_get_connection_spec h c p).2) "host"
      = some (SpecVal.str p.listening_addr) := by
    rw [proxied_spec_read, dictGet_dictSet, dictGet_dictSet]
    simp
  have hport : dictGet
      ((ProxiedClusterTestCase_get_connection_spec h c p).1.read
        (ProxiedClusterTestCase_get_connection_spec h c p).2) "port"
      = some (SpecVal.num p.listening_port) := by
    rw [proxied_spec_read, dictGet_dictSet]
    simp
  refine ⟨hhost, hport, ?_, ?_⟩
  · intro hne
    rw [hhost]
    exact fun hh => hne hh.symm
  · intro hne
    rw [hport]
    exact fun hh => hne hh.symm

/-- Claim C5 (witness): with a cluster spec stored as a local socket path and
port 5432 and a proxy listening on `127.0.0.1:4444`, the returned mapping
carries the proxy's endpoint and differs from the cluster's own entries. -/
theorem proxied_connection_spec_points_at_proxy_witness :
    (dictGet
        ((ProxiedClusterTestCase_get_connection_spec
            ⟨[[("host", SpecVal.str "/tmp/pg"), ("port", SpecVal.num 5432)]]⟩
            ⟨0⟩ ⟨"127.0.0.1", 4444⟩).1.read
          (ProxiedClusterTestCase_get_connection_spec
            ⟨[[("host", SpecVal.str "/tmp/pg"), ("port", SpecVal.num 5432)]]⟩
            ⟨0⟩ ⟨"127.0.0.1", 4444⟩).2) "host"
      = some (SpecVal.str "127.0.0.1"))
    ∧ (dictGet
        ((ProxiedClusterTestCase_get_connection_spec
            ⟨[[("host", SpecVal.str "/tmp/pg"), ("port", SpecVal.num 5432)]]⟩
            ⟨0⟩ ⟨"127.0.0.1", 4444⟩).1.read
          (ProxiedClusterTestCase_get_connection_spec
            ⟨[[("host", SpecVal.str "/tmp/pg"), ("port", SpecVal.num 5432)]]⟩
            ⟨0⟩ ⟨"127.0.0.1", 4444⟩).2) "host"
      ≠ dictGet
          ((⟨[[("host", SpecVal.str "/tmp/pg"), ("port", SpecVal.num 5432)]]⟩
            : Heap).read 0) "host")
    ∧ (dictGet
        ((ProxiedClusterTestCase_get_connection_spec
            ⟨[[("host", SpecVal.str "/tmp/pg"), ("port", SpecVal.num 5432)]]⟩
            ⟨0⟩ ⟨"127.0.0.1", 4444⟩).1.read
          (ProxiedClusterTestCase_get_connection_spec
            ⟨[[("host", SpecVal.str "/tmp/pg"), ("port", SpecVal.num 5432)]]⟩
            ⟨0⟩ ⟨"127.0.0.1", 4444⟩).2) "port"
      ≠ dictGet
          ((⟨[[("host", SpecVal.str "/tmp/pg"), ("port", SpecVal.num 5432)]]⟩
            : Heap).read 0) "port") :=
  ⟨(proxied_connection_spec_points_at_proxy
      ⟨[[("host", SpecVal.str "/tmp/pg"), ("port", SpecVal.num 5432)]]⟩
      ⟨0⟩ ⟨"127.0.0.1", 4444⟩).1,
   (proxied_connection_spec_points_at_proxy
      ⟨[[("host", SpecVal.str "/tmp/pg"), ("port", SpecVal.num 5432)]]⟩
      ⟨0⟩ ⟨"127.0.0.1", 4444⟩).2.2.1 (by decide),
   (proxied_connection_spec_points_at_proxy
      ⟨[[("host", SpecVal.str "/tmp/pg"), ("port", SpecVal.num 5432)]]⟩
      ⟨0⟩ ⟨"127.0.0.1", 4444⟩).2.2.2 (by decide)⟩

/-- Claim C8: the cluster's own stored connection spec is unchanged by any
sequence of `connect`/`create_pool` calls with per-call overrides, because
each call merges the overrides into a freshly copied mapping. -/
theorem cluster_spec_unchanged_by_calls (c : ClusterObj) (h : Heap)
    (calls : List TCCall) (hv : c.specRef < h.cells.length) :
    (runCalls c h calls).read c.specRef = h.read c.specRef := by
  induction calls generalizing h with
  | nil => rfl
  | cons call rest ih =>
    cases call with
    | connectCall k =>
      have hp := connect_preserves h c k c.specRef hv
      have hv2 : c.specRef < (ClusterTestCase_connect h c k).1.cells.length :=
        lt_trans hv hp.2
      rw [runCalls, ih _ hv2, hp.1]
    | createPoolCall k =>
      have heq : ClusterTestCase_create_pool h c k
          = ClusterTestCase_connect h c k := rfl
      have hp := connect_preserves h c k c.specRef hv
      have hv2 : c.specRef < (ClusterTestCase_connect h c k).1.cells.length :=
        lt_trans hv hp.2
      rw [runCalls, heq, ih _ hv2, hp.1]

/-- Claim C8 (witness): after a `connect` overriding `user` and a
`create_pool` overriding `port`, the cluster's stored spec still reads
exactly as before. -/
theorem cluster_spec_unchanged_by_calls_witness :
    (runCalls ⟨0⟩
        ⟨[[("host", SpecVal.str "h"), ("port", SpecVal.num 5432)]]⟩
        [.connectCall [("user", SpecVal.str "u")],
         .createPoolCall [("port", SpecVal.num 1)]]).read 0
      = (⟨[[("host", SpecVal.str "h"), ("port", SpecVal.num 5432)]]⟩
          : Heap).read 0 :=
  cluster_spec_unchanged_by_calls ⟨0⟩
    ⟨[[("host", SpecVal.str "h"), ("port", SpecVal.num 5432)]]⟩
    [.connectCall [("user", SpecVal.str "u")],
     .createPoolCall [("port", SpecVal.num 1)]] (by decide)

/-- Claim C6 (counterexample): when the wrapped block raises *and* the
elapsed time exceeds the bound, the block's exception is not what propagates:
the `AssertionError` raised in the `finally` clause replaces it (the
`ValueError` survives only as the `AssertionError`'s `__context__`).  Block:
raises `ValueError` after 2 time-units under a bound of 1. -/
theorem assertRunUnder_counterexample :
    assertRunUnder 1 ⟨2, .error ⟨⟨"ValueError", "boom"⟩, none, false, none⟩⟩
      ≠ .raised ⟨⟨"ValueError", "boom"⟩, none, false, none⟩
    ∧ assertRunUnder 1 ⟨2, .error ⟨⟨"ValueError", "boom"⟩, none, false, none⟩⟩
      = .raised ⟨⟨"AssertionError", runUnderMsg 2 1⟩, none, false,
          some ⟨"ValueError", "boom"⟩⟩ := by
  decide

/-- Claim C6 (amended): `assertRunUnder(delta)` raises the `AssertionError`
reporting elapsed time and bound whenever the elapsed time exceeds `delta` —
even when the block itself raised, in which case the block's exception is
superseded (recorded as `__context__`); when the elapsed time is within
`delta`, a normally-completing block raises nothing and a raising block's own
exception propagates. -/
theorem assertRunUnder_behavior (delta : Rat) (b : Block) (e : PyExc) :
    (delta < b.duration →
      assertRunUnder delta b = .raised ⟨⟨"AssertionError",
        runUnderMsg b.duration delta⟩, none, false, blockContextInfo b⟩)
    ∧ (b.duration ≤ delta → b.outcome = .ok → assertRunUnder delta b = .ok)
    ∧ (b.duration ≤ delta → b.outcome = .error e →
        assertRunUnder delta b = .raised e) := by
  refine ⟨?_, ?_, ?_⟩
  · intro hlt
    simp [assertRunUnder, hlt]
  · intro hle hok
    simp [assertRunUnder, not_lt.mpr hle, hok]
  · intro hle herr
    simp [assertRunUnder, not_lt.mpr hle, herr]

/-- Claim C6 (witness): a normally-completing block of duration 2 under
bound 1 fails with the timing assertion; duration 1 under bound 2 passes; a
block raising `ValueError` within the bound propagates the `ValueError`. -/
theorem assertRunUnder_behavior_witness :
    (assertRunUnder 1 ⟨2, .ok⟩
      = .raised ⟨⟨"AssertionError", runUnderMsg 2 1⟩, none, false,
          blockContextInfo ⟨2, .ok⟩⟩)
    ∧ (assertRunUnder 2 ⟨1, .ok⟩ = .ok)
    ∧ (assertRunUnder 2 ⟨1, .error ⟨⟨"ValueError", "boom"⟩, none, false,
          none⟩⟩
      = .raised ⟨⟨"ValueError", "boom"⟩, none, false, none⟩) :=
  ⟨(assertRunUnder_behavior 1 ⟨2, .ok⟩
      ⟨⟨"ValueError", "boom"⟩, none, false, none⟩).1 (by norm_num),
   (assertRunUnder_behavior 2 ⟨1, .ok⟩
      ⟨⟨"ValueError", "boom"⟩, none, false, none⟩).2.1 (by norm_num) rfl,
   (assertRunUnder_behavior 2
      ⟨1, .error ⟨⟨"ValueError", "boom"⟩, none, false, none⟩⟩
      ⟨⟨"ValueError", "boom"⟩, none, false, none⟩).2.2 (by norm_num) rfl⟩

/-- Claim C7 (counterexample): `ProxiedClusterTestCase.tearDownClass` does
*not* stop the proxy after the superclass teardown chain: the trace is not
`TestCase` teardown followed by the proxy stop, and closing the loop does not
come before stopping the proxy. -/
theorem proxied_teardown_counterexample :
    ProxiedClusterTestCase_tearDownClass
      ≠ TestCase_tearDownClass ++ [TDEvent.proxyStop]
    ∧ ¬ (firstIdx TDEvent.loopClose ProxiedClusterTestCase_tearDownClass
        < firstIdx TDEvent.proxyStop ProxiedClusterTestCase_tearDownClass) := by
  decide

/-- Claim C7 (amended): class teardown stops the proxy *before* calling the
superclass teardown chain — the trace is the proxy stop followed by
`TestCase.tearDownClass` (which closes the loop), so the proxy stop runs on a
still-open loop. -/
theorem proxied_teardown_order :
    ProxiedClusterTestCase_tearDownClass
      = TDEvent.proxyStop :: TestCase_tearDownClass
    ∧ firstIdx TDEvent.proxyStop ProxiedClusterTestCase_tearDownClass
        < firstIdx TDEvent.loopClose ProxiedClusterTestCase_tearDownClass := by
  decide

/-- Claim C9 (counterexample): the raise-iff-no-match claim fails for a
captured context whose `message` field is the empty string: the empty pattern
matches the empty message under `re.search` semantics, yet the helper raises
its `AssertionError` because `if msg and ...` treats the empty message as
falsy and skips it. -/
theorem aleh_counterexample :
    (assertLoopErrorHandlerCalled substrSearch "" none
        ⟨.ok, [⟨some ""⟩]⟩).result
      = .raised ⟨⟨"AssertionError", noMatchMsg ""⟩, none, false, none⟩
    ∧ substrSearch "" "" = true
    ∧ (⟨some ""⟩ : HandlerCtx).message = some "" := by
  decide

/-- Claim C9 (amended): `assertLoopErrorHandlerCalled(pattern)` installs the
capturing handler for the duration of the block and restores the previous
handler unconditionally (also when the block raises, in which case the
block's exception propagates and the scan is skipped); after a
normally-completing block it raises `AssertionError` iff no captured context
has a *non-empty* `message` field matching the pattern (a missing or empty
message never counts, by Python truthiness). -/
theorem assertLoopErrorHandlerCalled_behavior
    (search : String → String → Bool) (msg_re : String)
    (old : Option HandlerV) (b : LoopBlock) (e : PyExc) :
    ((assertLoopErrorHandlerCalled search msg_re old b).handlerAfter = old)
    ∧ ((assertLoopErrorHandlerCalled search msg_re old b).handlerDuring
        = some HandlerV.capturing)
    ∧ (b.outcome = .error e →
        (assertLoopErrorHandlerCalled search msg_re old b).result = .raised e)
    ∧ (b.outcome = .ok →
        ((assertLoopErrorHandlerCalled search msg_re old b).result
            = .raised ⟨⟨"AssertionError", noMatchMsg msg_re⟩, none, false,
                none⟩
          ↔ b.contexts.any (ctxMatches search msg_re) = false)) := by
  refine ⟨rfl, rfl, ?_, ?_⟩
  · intro herr
    simp [assertLoopErrorHandlerCalled, herr]
  · intro hok
    by_cases hany : b.contexts.any (ctxMatches search msg_re)
    · simp [assertLoopErrorHandlerCalled, hok, hany]
    · simp [assertLoopErrorHandlerCalled, hok, hany]

/-- Claim C9 (witness): with previous handler number 7 installed — it is
restored afterwards; a block raising `ValueError` propagates it; a block
whose captured context carries `"task failed: boom"` does not trigger the
assertion for pattern `"boom"`; a block whose only captured message is
`"quiet"` does. -/
theorem assertLoopErrorHandlerCalled_behavior_witness :
    ((assertLoopErrorHandlerCalled substrSearch "boom"
        (some (HandlerV.outside 7))
        ⟨.ok, [⟨some "task failed: boom"⟩]⟩).handlerAfter
      = some (HandlerV.outside 7))
    ∧ ((assertLoopErrorHandlerCalled substrSearch "boom"
        (some (HandlerV.outside 7))
        ⟨.error ⟨⟨"ValueError", "x"⟩, none, false, none⟩, []⟩).result
      = .raised ⟨⟨"ValueError", "x"⟩, none, false, none⟩)
    ∧ ((assertLoopErrorHandlerCalled substrSearch "boom"
        (some (HandlerV.outside 7))
        ⟨.ok, [⟨some "task failed: boom"⟩]⟩).result
      ≠ .raised ⟨⟨"AssertionError", noMatchMsg "boom"⟩, none, false, none⟩)
    ∧ ((assertLoopErrorHandlerCalled substrSearch "boom"
        (some (HandlerV.outside 7)) ⟨.ok, [⟨some "quiet"⟩]⟩).result
      = .raised ⟨⟨"AssertionError", noMatchMsg "boom"⟩, none, false, none⟩) :=
  ⟨(assertLoopErrorHandlerCalled_behavior substrSearch "boom"
      (some (HandlerV.outside 7)) ⟨.ok, [⟨some "task failed: boom"⟩]⟩
      ⟨⟨"ValueError", "x"⟩, none, false, none⟩).1,
   (assertLoopErrorHandlerCalled_behavior substrSearch "boom"
      (some (HandlerV.outside 7))
      ⟨.error ⟨⟨"ValueError", "x"⟩, none, false, none⟩, []⟩
      ⟨⟨"ValueError", "x"⟩, none, false, none⟩).2.2.1 rfl,
   fun hr => absurd
     (((assertLoopErrorHandlerCalled_behavior substrSearch "boom"
        (some (HandlerV.outside 7)) ⟨.ok, [⟨some "task failed: boom"⟩]⟩
        ⟨⟨"ValueError", "x"⟩, none, false, none⟩).2.2.2 rfl).mp hr)
     (by decide),
   ((assertLoopErrorHandlerCalled_behavior substrSearch "boom"
      (some (HandlerV.outside 7)) ⟨.ok, [⟨some "quiet"⟩]⟩
      ⟨⟨"ValueError", "x"⟩, none, false, none⟩).2.2.2 rfl).mpr (by decide)⟩

end Testbase
